import Mathlib

/-!
Shallow embedding of the polymarket-api order service:
`src/services/clobClient.ts` (session registry, market resolver, order
dispatch) and `src/routes/orders.ts` (the three order endpoints).

JavaScript values are modelled as follows: optional/nullable request
fields are `Option`, JS numbers are `Rat`, JS string truthiness is an
explicit check for `none`/`""`, thrown exceptions are the `Except.error`
side of each step, and the process-wide mutable caches of `ClobClient`
are an explicit `Registry` state threaded through every operation.
Mutations survive a throw (as in JS), so every step returns
`Except err α × Registry`.  Network-bound upstream calls (API-key
derivation, tick-size query, order submission) are fields of an `Env`
record and every invocation is recorded in `Registry.netLog`.
-/

namespace PolymarketApi

/-! ### Upstream data shapes -/

structure ApiKeyCreds where
  key : String
  secret : String
  passphrase : String
deriving DecidableEq

/-- A constructed `PolymarketClobClient`; `id` is a creation counter so
that distinct constructions are distinguishable values. -/
structure Client where
  id : Nat
  host : String
  chainId : Int
  privateKey : String
  creds : Option ApiKeyCreds
  signatureType : Int
  funderAddress : String
deriving DecidableEq

inductive Side where
  | BUY
  | SELL
deriving DecidableEq

inductive VenueOrderType where
  | GTC
  | GTD
  | FOK
  | FAK
deriving DecidableEq

/-- Payload handed to the session's `createAndPostOrder` upstream call. -/
structure LimitPayload where
  tokenID : String
  price : Rat
  side : Side
  size : Rat
  tickSize : String
  negRisk : Bool
  orderType : VenueOrderType
deriving DecidableEq

/-- Payload handed to the session's market-order submission upstream call. -/
structure MarketPayload where
  tokenID : String
  amount : Rat
  side : Side
  orderType : VenueOrderType
  tickSize : String
deriving DecidableEq

/-- Record of one network-bound upstream invocation. -/
inductive NetCall where
  | derive (privateKey : String)
  | getTick (tokenID : String)
  | postLimit (p : LimitPayload)
  | postMarket (p : MarketPayload)
deriving DecidableEq

/-- Opaque order response from the venue (`any` in the source). -/
abbrev OrderData := String

/-- A thrown JS error, with the fields the source inspects:
`error.message`, `error?.response?.status`, `error?.data?.error`. -/
structure UpstreamErr where
  message : String
  responseStatus : Option Int := none
  dataError : Option String := none
deriving DecidableEq

/-- Source `new Error(msg)`: carries only a message. -/
def mkErr (msg : String) : UpstreamErr := { message := msg }

/-! ### JS helpers -/

/-- JS string falsiness of an optional string: `undefined`, `null` or `""`. -/
def strFalsy : Option String → Bool
  | none => true
  | some s => s == ""

def strTruthy (o : Option String) : Bool := !(strFalsy o)

/-- JS `s || fallback` for strings. -/
def jsOr (s fallback : String) : String := if s == "" then fallback else s

/-- JS `o || fallback` for an optional string. -/
def jsOrStr : Option String → String → String
  | none, d => d
  | some s, d => if s == "" then d else s

/-- Source check `amount === undefined || amount === null || amount <= 0`. -/
def amountBad : Option Rat → Bool
  | none => true
  | some a => decide (a ≤ 0)

/-- Source check `!orderType || !["FOK", "FAK"].includes(orderType)`. -/
def mOrderTypeBad : Option String → Bool
  | none => true
  | some t => !(t == "FOK" || t == "FAK")

/-- Source check `(privateKey && !funderAddress) || (!privateKey && funderAddress)`. -/
def pairingViolation (pk fa : Option String) : Bool :=
  (strTruthy pk && !(strTruthy fa)) || (!(strTruthy pk) && strTruthy fa)

structure Cred where
  privateKey : String
  funderAddress : String
deriving DecidableEq

/-- The credentials ternary shared by all three routes:
`privateKey && funderAddress ? { privateKey, funderAddress } : undefined`. -/
def resolveCreds (pk fa : Option String) : Option Cred :=
  if strTruthy pk && strTruthy fa then some ⟨pk.getD "", fa.getD ""⟩ else none

/-- Substring occurrence over character lists (JS `String.prototype.includes`). -/
def hasSub (pat : List Char) : List Char → Bool
  | [] => pat.isEmpty
  | c :: rest => pat.isPrefixOf (c :: rest) || hasSub pat rest

/-- JS `s.includes(pat)`. -/
def occursIn (s pat : String) : Bool := hasSub pat.data s.data

/-- Source check `error?.response?.status === 404 || error?.data?.error?.includes("not found")`. -/
def notFoundSignal (e : UpstreamErr) : Bool :=
  e.responseStatus == some 404 ||
    (match e.dataError with
     | some d => occursIn d "not found"
     | none => false)

/-! ### The static caches (`Map` fields of class `ClobClient`) -/

/-- Association-list lookup modelling `Map.get`/`Map.has`. -/
def alookup {α : Type} : List (String × α) → String → Option α
  | [], _ => none
  | (k', v) :: rest, k => if k' == k then some v else alookup rest k

/-- Models `Map.set` (newest entry wins on lookup). -/
def ainsert {α : Type} (l : List (String × α)) (k : String) (v : α) :
    List (String × α) := (k, v) :: l

/-- The mutable static state of class `ClobClient`, plus the log of
network-bound upstream calls and a counter for fresh client identities. -/
structure Registry where
  instanceVar : Option Client
  clientCache : List (String × Client)
  credsCache : List (String × Option ApiKeyCreds)
  nextId : Nat
  netLog : List NetCall
deriving DecidableEq

def Registry.init : Registry :=
  { instanceVar := none, clientCache := [], credsCache := [], nextId := 0, netLog := [] }

/-- External collaborators: resolved process configuration and the
upstream venue calls, plus the clock. -/
structure Env where
  envPrivateKey : Option String
  envFunder : Option String
  host : String
  chainId : Int
  signatureType : Int
  now : String
  makeWallet : String → Except UpstreamErr Unit
  derive : String → Except UpstreamErr (Option ApiKeyCreds)
  getTickSize : String → Except UpstreamErr String
  postLimitU : LimitPayload → Except UpstreamErr OrderData
  postMarketU : MarketPayload → Except UpstreamErr OrderData

/-! ### `ClobClient` (src/services/clobClient.ts) -/

/-- Source line `` const cacheKey = `${privateKey}-${funderAddress}` ``. -/
def cacheKey (privateKey funderAddress : String) : String :=
  privateKey ++ "-" ++ funderAddress

/-- The credentials-cache consultation inside `getInstanceWithCredentials`
(clobClient.ts lines 82-103): reuse cached derived credentials, else call
`createOrDeriveApiKey`.  A derivation result of `.ok none` models the call
resolving to `null`/`undefined`; as in the source it is stored in the
credentials cache before the null check throws. -/
def credsLookupOrDerive (env : Env) (privateKey key : String) (st : Registry) :
    Except UpstreamErr (Option ApiKeyCreds) × Registry :=
  match alookup st.credsCache key with
  | some cached => (.ok cached, st)
  | none =>
    let st1 : Registry := { st with netLog := st.netLog ++ [NetCall.derive privateKey] }
    match env.derive privateKey with
    | .error e =>
      (.error (mkErr ("Failed to create API key: " ++ jsOr e.message "Unknown error" ++
        ". Please check your privateKey and ensure your wallet is properly configured.")), st1)
    | .ok c? =>
      let st2 : Registry := { st1 with credsCache := ainsert st1.credsCache key c? }
      match c? with
      | none => (.error (mkErr "API key creation returned null/undefined"), st2)
      | some c => (.ok (some c), st2)

/-- Method `ClobClient.getInstanceWithCredentials` (clobClient.ts lines 53-120). -/
def getInstanceWithCredentials (env : Env) (privateKey funderAddress host : String)
    (chainId signatureType : Int) (st : Registry) :
    Except UpstreamErr Client × Registry :=
  match alookup st.clientCache (cacheKey privateKey funderAddress) with
  | some c => (.ok c, st)
  | none =>
    if privateKey == "" then (.error (mkErr "privateKey is required"), st)
    else if funderAddress == "" then (.error (mkErr "funderAddress is required"), st)
    else
      match env.makeWallet privateKey with
      | .error e => (.error e, st)
      | .ok _ =>
        match credsLookupOrDerive env privateKey (cacheKey privateKey funderAddress) st with
        | (.error e, st') => (.error e, st')
        | (.ok creds?, st') =>
          let client : Client :=
            { id := st'.nextId, host := host, chainId := chainId, privateKey := privateKey,
              creds := creds?, signatureType := signatureType, funderAddress := funderAddress }
          (.ok client,
            { st' with nextId := st'.nextId + 1,
                       clientCache := ainsert st'.clientCache (cacheKey privateKey funderAddress) client })

/-- Method `ClobClient.getInstance` (clobClient.ts lines 22-48). `instanceVar`
is checked but never written, exactly as in the source. -/
def getInstance (env : Env) (st : Registry) : Except UpstreamErr Client × Registry :=
  match st.instanceVar with
  | some c => (.ok c, st)
  | none =>
    if strFalsy env.envPrivateKey then
      (.error (mkErr "PRIVATE_KEY environment variable is required"), st)
    else if strFalsy env.envFunder then
      (.error (mkErr "FUNDER_ADDRESS environment variable is required"), st)
    else
      getInstanceWithCredentials env (env.envPrivateKey.getD "") (env.envFunder.getD "")
        env.host env.chainId env.signatureType st

structure MarketInfo where
  tickSize : String
  exists' : Bool
deriving DecidableEq

/-- Method `ClobClient.getMarketInfo` (clobClient.ts lines 125-142). -/
def getMarketInfo (env : Env) (tokenID : String) (client? : Option Client) (st : Registry) :
    Except UpstreamErr MarketInfo × Registry :=
  match (match client? with
         | some c => (Except.ok c, st)
         | none => getInstance env st) with
  | (.error e, st') => (.error e, st')
  | (.ok _, st') =>
    let st'' : Registry := { st' with netLog := st'.netLog ++ [NetCall.getTick tokenID] }
    match env.getTickSize tokenID with
    | .ok ts => (.ok { tickSize := ts, exists' := true }, st'')
    | .error e =>
      if notFoundSignal e then
        (.error (mkErr ("Market not found for tokenID: " ++ tokenID ++
          ". Please verify the tokenID is correct and the market exists.")), st'')
      else (.error e, st'')

/-- The client-acquisition step of `createAndPostOrder`:
use explicit credentials if provided, else the env-var singleton path. -/
def acquireClient (env : Env) (credentials : Option Cred) (st : Registry) :
    Except UpstreamErr Client × Registry :=
  match credentials with
  | some c =>
    getInstanceWithCredentials env c.privateKey c.funderAddress
      env.host env.chainId env.signatureType st
  | none => getInstance env st

/-- The `try { getMarketInfo } catch` wrapper inside `createAndPostOrder`. -/
def fetchTick (env : Env) (tokenID : String) (client : Client) (st : Registry) :
    Except UpstreamErr String × Registry :=
  match getMarketInfo env tokenID (some client) st with
  | (.ok mi, st') => (.ok mi.tickSize, st')
  | (.error e, st') =>
    (.error (mkErr ("Failed to get market info: " ++ e.message ++
      ". Please provide tickSize manually or use a valid tokenID.")), st')

/-- Source lines `let tickSize = marketParams.tickSize; if (!tickSize) { ...fetch... }`:
an absent or empty tick size triggers the fetch. -/
def resolveTick (env : Env) (tokenID : String) (client : Client)
    (tickSize? : Option String) (st : Registry) :
    Except UpstreamErr String × Registry :=
  match tickSize? with
  | some ts => if ts == "" then fetchTick env tokenID client st else (.ok ts, st)
  | none => fetchTick env tokenID client st

/-- The `catch` block around the submission `try` in `createAndPostOrder`:
rewrites 404s and "toString" symptoms, passes everything else through. -/
def submitCatch (tokenID : String) (e : UpstreamErr) : UpstreamErr :=
  if e.responseStatus == some 404 then
    mkErr ("Market not found for tokenID: " ++ tokenID ++
      ". Please verify the tokenID is correct.")
  else if occursIn e.message "toString" then
    mkErr ("Invalid market parameters. Market may not exist or tickSize may be incorrect. Original error: " ++ e.message)
  else e

/-- Message of the error thrown when a FOK/FAK order type reaches the
limit-order dispatcher. -/
def fokRejectMsg (orderType : String) : String :=
  "Order type " ++ orderType ++
    " requires createAndPostMarketOrder which needs a different order structure. Please use GTC or GTD for limit orders."

structure OrderParams where
  tokenID : String
  price : Rat
  side : String
  size : Rat
deriving DecidableEq

structure MarketParams where
  tickSize : Option String
  negRisk : Option Bool
deriving DecidableEq

structure MarketOrderParams where
  tokenID : String
  amount : Rat
  side : String
  orderType : String
deriving DecidableEq

/-- The limit payload handed to `client.createAndPostOrder`: side and
order-type enums mapped as in clobClient.ts lines 196-224 (any non-BUY
side becomes SELL, any non-GTD order type becomes GTC). -/
def mkLimitPayload (op : OrderParams) (mp : MarketParams) (ts orderType : String) :
    LimitPayload :=
  { tokenID := op.tokenID, price := op.price,
    side := if op.side == "BUY" then Side.BUY else Side.SELL,
    size := op.size, tickSize := ts,
    negRisk := mp.negRisk.getD false,
    orderType := if orderType == "GTD" then VenueOrderType.GTD else VenueOrderType.GTC }

/-- Method `ClobClient.createAndPostOrder` (clobClient.ts lines 147-240). -/
def createAndPostOrder (env : Env) (op : OrderParams) (mp : MarketParams)
    (orderType : String) (credentials : Option Cred) (st : Registry) :
    Except UpstreamErr OrderData × Registry :=
  match acquireClient env credentials st with
  | (.error e, st1) => (.error e, st1)
  | (.ok client, st1) =>
    match resolveTick env op.tokenID client mp.tickSize st1 with
    | (.error e, st2) => (.error e, st2)
    | (.ok ts, st2) =>
      if ts == "" then
        (.error (mkErr "tickSize is required but could not be determined from market"), st2)
      else if orderType == "FOK" || orderType == "FAK" then
        (.error (submitCatch op.tokenID (mkErr (fokRejectMsg orderType))), st2)
      else
        match env.postLimitU (mkLimitPayload op mp ts orderType) with
        | .ok d =>
          (.ok d, { st2 with netLog :=
            st2.netLog ++ [NetCall.postLimit (mkLimitPayload op mp ts orderType)] })
        | .error e =>
          (.error (submitCatch op.tokenID e), { st2 with netLog :=
            st2.netLog ++ [NetCall.postLimit (mkLimitPayload op mp ts orderType)] })

/-- Modelled from the spec: the market-payload mapping step (§4.4
MapEnums) of `ClobClient.createAndPostMarketOrder`, whose definition is
not among the provided source files: side and time-in-force strings are
mapped to venue codes. -/
def mkMarketPayload (op : MarketOrderParams) (ts orderType : String) : MarketPayload :=
  { tokenID := op.tokenID, amount := op.amount,
    side := if op.side == "BUY" then Side.BUY else Side.SELL,
    orderType := if orderType == "FAK" then VenueOrderType.FAK else VenueOrderType.FOK,
    tickSize := ts }

/-- Modelled from the spec: the "ResolveMarket only if tickSize absent"
step (§4.4 step 3) of `ClobClient.createAndPostMarketOrder`; an empty
string counts as absent and a Market Resolver failure propagates
unchanged ("aborts the whole request with the Market Resolver's error"). -/
def marketResolveTick (env : Env) (tokenID : String) (client : Client)
    (tickSize? : Option String) (st : Registry) :
    Except UpstreamErr String × Registry :=
  match tickSize? with
  | some ts =>
    if ts == "" then
      match getMarketInfo env tokenID (some client) st with
      | (.ok mi, s) => (.ok mi.tickSize, s)
      | (.error e, s) => (.error e, s)
    else (.ok ts, st)
  | none =>
    match getMarketInfo env tokenID (some client) st with
    | (.ok mi, s) => (.ok mi.tickSize, s)
    | (.error e, s) => (.error e, s)

/-- Modelled from the spec: `ClobClient.createAndPostMarketOrder` is
invoked by the market route (orders.ts line 146) but its definition is
not among the provided source files.  Per spec §4.4 it resolves the
session from the credentials (§4.1/§4.2), resolves the tick size via the
Market Resolver only when the supplied tick size is absent, maps the
side and time-in-force enums to venue codes, and submits through the
session's market-order submission call. -/
def createAndPostMarketOrder (env : Env) (op : MarketOrderParams)
    (tickSize? : Option String) (orderType : String) (credentials : Option Cred)
    (st : Registry) : Except UpstreamErr OrderData × Registry :=
  match acquireClient env credentials st with
  | (.error e, st1) => (.error e, st1)
  | (.ok client, st1) =>
    match marketResolveTick env op.tokenID client tickSize? st1 with
    | (.error e, st2) => (.error e, st2)
    | (.ok ts, st2) =>
      match env.postMarketU (mkMarketPayload op ts orderType) with
      | .ok d =>
        (.ok d, { st2 with netLog :=
          st2.netLog ++ [NetCall.postMarket (mkMarketPayload op ts orderType)] })
      | .error e =>
        (.error e, { st2 with netLog :=
          st2.netLog ++ [NetCall.postMarket (mkMarketPayload op ts orderType)] })

/-! ### Routes (src/routes/orders.ts) -/

/-- Interface `LimitOrderRequest` (types/order.ts): every field optional at the
JSON boundary. -/
structure LimitReq where
  tokenID : Option String
  price : Option Rat
  side : Option String
  size : Option Rat
  tickSize : Option String
  negRisk : Option Bool
  orderType : Option String
  expiration : Option Int
  privateKey : Option String
  funderAddress : Option String
deriving DecidableEq

/-- Interface `MarketOrderRequest` (types/order.ts). -/
structure MarketReq where
  tokenID : Option String
  amount : Option Rat
  side : Option String
  orderType : Option String
  tickSize : Option String
  privateKey : Option String
  funderAddress : Option String
deriving DecidableEq

/-- A JSON response body: either the bare `{error}` object the
validation branches return, or the `OrderResponse` envelope. -/
inductive Body where
  | errOnly (error : String)
  | envelope (success : Bool) (data : Option OrderData) (error : Option String) (timestamp : String)
deriving DecidableEq

structure HttpResponse where
  status : Nat
  body : Body
deriving DecidableEq

def bothRequiredMsg : String :=
  "Both privateKey and funderAddress must be provided together, or neither (to use environment variables)"

/-- Post-validation part of `POST /api/orders/limit` (orders.ts 55-87). -/
def limitDispatch (env : Env) (req : LimitReq) (credentials : Option Cred) (st : Registry) :
    HttpResponse × Registry :=
  match createAndPostOrder env
      { tokenID := req.tokenID.getD "", price := req.price.getD 0,
        side := req.side.getD "", size := req.size.getD 0 }
      { tickSize := req.tickSize, negRisk := some (req.negRisk.getD false) }
      (jsOrStr req.orderType "GTC") credentials st with
  | (.ok d, st') =>
    ({ status := 200, body := .envelope true (some d) none env.now }, st')
  | (.error e, st') =>
    ({ status := 500,
       body := .envelope false none (some (jsOr e.message "Failed to create limit order")) env.now }, st')

/-- Route `POST /api/orders/limit` (orders.ts lines 16-88). -/
def handleLimit (env : Env) (req : LimitReq) (st : Registry) : HttpResponse × Registry :=
  if strFalsy req.tokenID then ({ status := 400, body := .errOnly "tokenID is required" }, st)
  else if req.price.isNone then ({ status := 400, body := .errOnly "price is required" }, st)
  else if strFalsy req.side then
    ({ status := 400, body := .errOnly "side is required (BUY or SELL)" }, st)
  else if req.size.isNone then ({ status := 400, body := .errOnly "size is required" }, st)
  else if pairingViolation req.privateKey req.funderAddress then
    ({ status := 400, body := .errOnly bothRequiredMsg }, st)
  else limitDispatch env req (resolveCreds req.privateKey req.funderAddress) st

/-- Post-validation part of the legacy `POST /api/orders` (orders.ts 220-252);
identical to the limit route except for the fallback error text. -/
def legacyDispatch (env : Env) (req : LimitReq) (credentials : Option Cred) (st : Registry) :
    HttpResponse × Registry :=
  match createAndPostOrder env
      { tokenID := req.tokenID.getD "", price := req.price.getD 0,
        side := req.side.getD "", size := req.size.getD 0 }
      { tickSize := req.tickSize, negRisk := some (req.negRisk.getD false) }
      (jsOrStr req.orderType "GTC") credentials st with
  | (.ok d, st') =>
    ({ status := 200, body := .envelope true (some d) none env.now }, st')
  | (.error e, st') =>
    ({ status := 500,
       body := .envelope false none (some (jsOr e.message "Failed to create order")) env.now }, st')

/-- Legacy `POST /api/orders` (orders.ts lines 181-253). -/
def handleLegacy (env : Env) (req : LimitReq) (st : Registry) : HttpResponse × Registry :=
  if strFalsy req.tokenID then ({ status := 400, body := .errOnly "tokenID is required" }, st)
  else if req.price.isNone then ({ status := 400, body := .errOnly "price is required" }, st)
  else if strFalsy req.side then
    ({ status := 400, body := .errOnly "side is required (BUY or SELL)" }, st)
  else if req.size.isNone then ({ status := 400, body := .errOnly "size is required" }, st)
  else if pairingViolation req.privateKey req.funderAddress then
    ({ status := 400, body := .errOnly bothRequiredMsg }, st)
  else legacyDispatch env req (resolveCreds req.privateKey req.funderAddress) st

/-- Post-validation part of `POST /api/orders/market` (orders.ts 144-174). -/
def marketDispatch (env : Env) (req : MarketReq) (credentials : Option Cred) (st : Registry) :
    HttpResponse × Registry :=
  match createAndPostMarketOrder env
      { tokenID := req.tokenID.getD "", amount := req.amount.getD 0,
        side := req.side.getD "", orderType := req.orderType.getD "" }
      req.tickSize (req.orderType.getD "") credentials st with
  | (.ok d, st') =>
    ({ status := 200, body := .envelope true (some d) none env.now }, st')
  | (.error e, st') =>
    ({ status := 500,
       body := .envelope false none (some (jsOr e.message "Failed to create market order")) env.now }, st')

/-- Route `POST /api/orders/market` (orders.ts lines 94-175). -/
def handleMarket (env : Env) (req : MarketReq) (st : Registry) : HttpResponse × Registry :=
  if strFalsy req.tokenID then ({ status := 400, body := .errOnly "tokenID is required" }, st)
  else if amountBad req.amount then
    ({ status := 400, body := .errOnly "amount is required and must be greater than 0" }, st)
  else if strFalsy req.side then
    ({ status := 400, body := .errOnly "side is required (BUY or SELL)" }, st)
  else if mOrderTypeBad req.orderType then
    ({ status := 400, body := .errOnly "orderType is required and must be either FOK or FAK" }, st)
  else if pairingViolation req.privateKey req.funderAddress then
    ({ status := 400, body := .errOnly bothRequiredMsg }, st)
  else marketDispatch env req (resolveCreds req.privateKey req.funderAddress) st

/-! ### Observation helpers and concrete fixtures -/

/-- Whether a body is the `OrderResponse` envelope (as opposed to the
bare `{error}` object of the validation branches). -/
def isEnvelope : Body → Bool
  | Body.envelope _ _ _ _ => true
  | Body.errOnly _ => false

/-- The response-shape discipline the endpoints actually follow:
400 with a bare error object, 200 with a success envelope, or 500 with
a failure envelope (timestamped with the handler's clock). -/
def respShape (now : String) (r : HttpResponse) : Prop :=
  (r.status = 400 ∧ ∃ m, r.body = Body.errOnly m) ∨
  (r.status = 200 ∧ ∃ d, r.body = Body.envelope true (some d) none now) ∨
  (r.status = 500 ∧ ∃ m, r.body = Body.envelope false none (some m) now)

/-- "The log grew only by derivation and tick-size lookups" — no order
was submitted between the two states. -/
def newLogOk (old new : List NetCall) : Prop :=
  ∃ tail, new = old ++ tail ∧
    ∀ x ∈ tail, (∃ k, x = NetCall.derive k) ∨ (∃ tok, x = NetCall.getTick tok)

/-- An environment in which every upstream call succeeds. -/
def okEnv : Env :=
  { envPrivateKey := some "ek", envFunder := some "ef",
    host := "h", chainId := 137, signatureType := 1,
    now := "T",
    makeWallet := fun _ => .ok (),
    derive := fun _ => .ok (some { key := "k", secret := "s", passphrase := "p" }),
    getTickSize := fun _ => .ok "0.01",
    postLimitU := fun _ => .ok "posted-limit",
    postMarketU := fun _ => .ok "posted-market" }

/-- Like `okEnv` but the limit submission throws an error whose message
is empty (so the route falls back to its hard-coded text). -/
def emptyMsgEnv : Env := { okEnv with postLimitU := fun _ => .error (mkErr "") }

/-- A 404-style upstream error (the venue's "market not found" signal). -/
def nfErr : UpstreamErr := { message := "boom", responseStatus := some 404, dataError := none }

/-- Like `okEnv` but the tick-size query fails with a 404-style error. -/
def nfEnv : Env := { okEnv with getTickSize := fun _ => Except.error nfErr }

def credsKsp : ApiKeyCreds := { key := "k", secret := "s", passphrase := "p" }

/-- The client `okEnv` constructs for the explicit pair `("pk", "fa")`. -/
def clientPk : Client :=
  { id := 0, host := "h", chainId := 137, privateKey := "pk",
    creds := some credsKsp, signatureType := 1, funderAddress := "fa" }

/-- Registry state after first constructing `clientPk`. -/
def stPk1 : Registry :=
  { instanceVar := none, clientCache := [("pk-fa", clientPk)],
    credsCache := [("pk-fa", some credsKsp)], nextId := 1,
    netLog := [NetCall.derive "pk"] }

/-- The client `okEnv` constructs for the env-var pair `("ek", "ef")`. -/
def clientEk : Client :=
  { id := 0, host := "h", chainId := 137, privateKey := "ek",
    creds := some credsKsp, signatureType := 1, funderAddress := "ef" }

/-- Registry state after first constructing `clientEk`. -/
def stEk1 : Registry :=
  { instanceVar := none, clientCache := [("ek-ef", clientEk)],
    credsCache := [("ek-ef", some credsKsp)], nextId := 1,
    netLog := [NetCall.derive "ek"] }

/-- State `stEk1` after one tick-size lookup for `"tok"`. -/
def stEk2 : Registry := { stEk1 with netLog := [NetCall.derive "ek", NetCall.getTick "tok"] }

/-- The market payload submitted for `mreqW`. -/
def payloadW : MarketPayload :=
  { tokenID := "tok", amount := 10, side := Side.BUY,
    orderType := VenueOrderType.FOK, tickSize := "0.01" }

/-- Final registry state of the successful market-order run of `mreqW`. -/
def stMarketFinal : Registry :=
  { instanceVar := none, clientCache := [("pk-fa", clientPk)],
    credsCache := [("pk-fa", some credsKsp)], nextId := 1,
    netLog := [NetCall.derive "pk", NetCall.getTick "tok", NetCall.postMarket payloadW] }

/-- A fully valid market-order request carrying explicit credentials. -/
def mreqW : MarketReq :=
  { tokenID := some "tok", amount := some 10, side := some "BUY", orderType := some "FOK",
    tickSize := none, privateKey := some "pk", funderAddress := some "fa" }

/-- A limit request with `orderType = "FOK"` and no explicit credentials. -/
def lreqFok : LimitReq :=
  { tokenID := some "tok", price := some 1, side := some "BUY", size := some 2,
    tickSize := none, negRisk := none, orderType := some "FOK", expiration := none,
    privateKey := none, funderAddress := none }

/-- A limit request missing its price. -/
def lreqNoPrice : LimitReq :=
  { tokenID := some "tok", price := none, side := some "BUY", size := some 2,
    tickSize := none, negRisk := none, orderType := none, expiration := none,
    privateKey := none, funderAddress := none }

/-- A limit request whose side is the out-of-vocabulary string "HOLD". -/
def lreqHold : LimitReq :=
  { tokenID := some "tok", price := some 1, side := some "HOLD", size := some 2,
    tickSize := some "0.1", negRisk := none, orderType := none, expiration := none,
    privateKey := some "pk", funderAddress := some "fa" }

/-- A plain valid limit request with explicit credentials and tick size. -/
def lreqPlain : LimitReq :=
  { tokenID := some "tok", price := some 1, side := some "BUY", size := some 2,
    tickSize := some "0.1", negRisk := none, orderType := none, expiration := none,
    privateKey := some "pk", funderAddress := some "fa" }

/-- A valid limit request with the unknown order type "XYZ". -/
def lreqXyz : LimitReq :=
  { tokenID := some "tok", price := some 1, side := some "BUY", size := some 2,
    tickSize := some "0.1", negRisk := none, orderType := some "XYZ", expiration := none,
    privateKey := some "pk", funderAddress := some "fa" }

/-- The payload submitted for `lreqHold`: the out-of-vocabulary side
"HOLD" has been mapped to SELL. -/
def payloadHoldSell : LimitPayload :=
  { tokenID := "tok", price := 1, side := Side.SELL, size := 2,
    tickSize := "0.1", negRisk := false, orderType := VenueOrderType.GTC }

/-- A valid limit request with no tick size supplied (forces the fetch). -/
def lreqFetch : LimitReq :=
  { tokenID := some "tok", price := some 1, side := some "BUY", size := some 2,
    tickSize := none, negRisk := none, orderType := none, expiration := none,
    privateKey := none, funderAddress := none }

/-! ### Helper lemmas -/

theorem alookup_ainsert_self {α : Type} (l : List (String × α)) (k : String) (v : α) :
    alookup (ainsert l k v) k = some v := by
  simp [alookup, ainsert]

theorem strApp_data (a b : String) : (a ++ b).data = a.data ++ b.data := rfl

theorem isPrefixOf_self_append (l t : List Char) : l.isPrefixOf (l ++ t) = true := by
  induction l with
  | nil => cases t <;> rfl
  | cons c rest ih => simp [List.isPrefixOf, ih]

theorem hasSub_of_prefix (pat l : List Char) (h : pat.isPrefixOf l = true) :
    hasSub pat l = true := by
  cases l with
  | nil =>
    cases pat with
    | nil => rfl
    | cons c r => simp [List.isPrefixOf] at h
  | cons c r => simp [hasSub, h]

theorem hasSub_append (pre pat post : List Char) :
    hasSub pat (pre ++ (pat ++ post)) = true := by
  induction pre with
  | nil => exact hasSub_of_prefix _ _ (isPrefixOf_self_append pat post)
  | cons c rest ih => simp [hasSub, ih]

theorem hasSub_append' (pre post pat l : List Char) (h : l = pre ++ (pat ++ post)) :
    hasSub pat l = true := by
  subst h; exact hasSub_append pre pat post

theorem str_ne_empty_of_data_cons (a : String) (c : Char) (l : List Char)
    (h : a.data = c :: l) : a ≠ "" := by
  intro hc
  rw [hc] at h
  exact List.noConfusion h

theorem credsLookupOrDerive_netLog (env : Env) (pk key : String) (st : Registry) :
    (credsLookupOrDerive env pk key st).2.netLog = st.netLog ∨
      (credsLookupOrDerive env pk key st).2.netLog = st.netLog ++ [NetCall.derive pk] := by
  unfold credsLookupOrDerive
  split
  · exact Or.inl rfl
  · split
    · exact Or.inr rfl
    · split
      · exact Or.inr rfl
      · exact Or.inr rfl

theorem giwc_netLog (env : Env) (pk fa host : String) (ci sg : Int) (st : Registry) :
    (getInstanceWithCredentials env pk fa host ci sg st).2.netLog = st.netLog ∨
      (getInstanceWithCredentials env pk fa host ci sg st).2.netLog
        = st.netLog ++ [NetCall.derive pk] := by
  unfold getInstanceWithCredentials
  split
  · exact Or.inl rfl
  · split
    · exact Or.inl rfl
    · split
      · exact Or.inl rfl
      · split
        · exact Or.inl rfl
        · split
          · rename_i hcr
            have h := credsLookupOrDerive_netLog env pk (cacheKey pk fa) st
            rw [hcr] at h
            exact h
          · rename_i hcr
            have h := credsLookupOrDerive_netLog env pk (cacheKey pk fa) st
            rw [hcr] at h
            exact h

theorem getInstance_netLog (env : Env) (st : Registry) :
    (getInstance env st).2.netLog = st.netLog ∨
      ∃ k, (getInstance env st).2.netLog = st.netLog ++ [NetCall.derive k] := by
  unfold getInstance
  split
  · exact Or.inl rfl
  · split
    · exact Or.inl rfl
    · split
      · exact Or.inl rfl
      · rcases giwc_netLog env (env.envPrivateKey.getD "") (env.envFunder.getD "")
          env.host env.chainId env.signatureType st with h | h
        · exact Or.inl h
        · exact Or.inr ⟨_, h⟩

theorem acquireClient_netLog (env : Env) (creds : Option Cred) (st : Registry) :
    (acquireClient env creds st).2.netLog = st.netLog ∨
      ∃ k, (acquireClient env creds st).2.netLog = st.netLog ++ [NetCall.derive k] := by
  unfold acquireClient
  cases creds with
  | some c =>
    rcases giwc_netLog env c.privateKey c.funderAddress env.host env.chainId
      env.signatureType st with h | h
    · exact Or.inl h
    · exact Or.inr ⟨_, h⟩
  | none => exact getInstance_netLog env st

theorem getMarketInfo_netLog_some (env : Env) (tok : String) (c : Client) (st : Registry) :
    (getMarketInfo env tok (some c) st).2.netLog = st.netLog ++ [NetCall.getTick tok] := by
  unfold getMarketInfo
  split
  · rename_i e st' heq
    have heq' : ((Except.ok c : Except UpstreamErr Client), st) = (Except.error e, st') := heq
    exact absurd heq' (by simp)
  · rename_i x st' heq
    have heq' : ((Except.ok c : Except UpstreamErr Client), st) = (Except.ok x, st') := heq
    injection heq' with h1 h2
    rw [← h2]
    split
    · rfl
    · split
      · rfl
      · rfl

theorem fetchTick_netLog (env : Env) (tok : String) (c : Client) (st : Registry) :
    (fetchTick env tok c st).2.netLog = st.netLog ++ [NetCall.getTick tok] := by
  unfold fetchTick
  split <;> rename_i h
  · have := getMarketInfo_netLog_some env tok c st
    rw [h] at this
    exact this
  · have := getMarketInfo_netLog_some env tok c st
    rw [h] at this
    exact this

theorem resolveTick_netLog (env : Env) (tok : String) (c : Client)
    (ts? : Option String) (st : Registry) :
    (resolveTick env tok c ts? st).2.netLog = st.netLog ∨
      (resolveTick env tok c ts? st).2.netLog = st.netLog ++ [NetCall.getTick tok] := by
  unfold resolveTick
  cases ts? with
  | some ts =>
    by_cases h : (ts == "") = true
    · simp only [h, if_true]
      exact Or.inr (fetchTick_netLog env tok c st)
    · simp only [eq_false_of_ne_true h, if_false]
      exact Or.inl rfl
  | none => exact Or.inr (fetchTick_netLog env tok c st)

theorem jsOr_of_ne (s fallback : String) (h : (s == "") = false) : jsOr s fallback = s := by
  simp [jsOr, h]

theorem fetchTick_ok (env : Env) (tok : String) (c : Client) (st : Registry) (ts : String)
    (h : env.getTickSize tok = .ok ts) :
    fetchTick env tok c st
      = (.ok ts, { st with netLog := st.netLog ++ [NetCall.getTick tok] }) := by
  unfold fetchTick getMarketInfo
  rw [h]

theorem fetchTick_notFound (env : Env) (tok : String) (c : Client) (st : Registry)
    (e : UpstreamErr) (h : env.getTickSize tok = .error e) (hnf : notFoundSignal e = true) :
    fetchTick env tok c st
      = (.error (mkErr ("Failed to get market info: " ++
          ("Market not found for tokenID: " ++ tok ++
            ". Please verify the tokenID is correct and the market exists.") ++
          ". Please provide tickSize manually or use a valid tokenID.")),
         { st with netLog := st.netLog ++ [NetCall.getTick tok] }) := by
  unfold fetchTick getMarketInfo
  rw [h]
  simp [hnf, mkErr]

theorem resolveTick_absent_ok (env : Env) (tok : String) (c : Client)
    (ts? : Option String) (st : Registry) (ts : String)
    (habs : ts? = none ∨ ts? = some "")
    (h : env.getTickSize tok = .ok ts) :
    resolveTick env tok c ts? st
      = (.ok ts, { st with netLog := st.netLog ++ [NetCall.getTick tok] }) := by
  rcases habs with habs | habs <;> subst habs <;>
    simp [resolveTick, fetchTick_ok env tok c st ts h]

theorem resolveTick_absent_notFound (env : Env) (tok : String) (c : Client)
    (ts? : Option String) (st : Registry) (e : UpstreamErr)
    (habs : ts? = none ∨ ts? = some "")
    (h : env.getTickSize tok = .error e) (hnf : notFoundSignal e = true) :
    resolveTick env tok c ts? st
      = (.error (mkErr ("Failed to get market info: " ++
          ("Market not found for tokenID: " ++ tok ++
            ". Please verify the tokenID is correct and the market exists.") ++
          ". Please provide tickSize manually or use a valid tokenID.")),
         { st with netLog := st.netLog ++ [NetCall.getTick tok] }) := by
  rcases habs with habs | habs <;> subst habs <;>
    simp [resolveTick, fetchTick_notFound env tok c st e h hnf]

theorem createAndPostOrder_fok
    (env : Env) (op : OrderParams) (mp : MarketParams) (t : String)
    (creds : Option Cred) (st st1 st2 : Registry) (client : Client) (ts : String)
    (hacq : acquireClient env creds st = (.ok client, st1))
    (htick : resolveTick env op.tokenID client mp.tickSize st1 = (.ok ts, st2))
    (hts : (ts == "") = false)
    (ht : t = "FOK" ∨ t = "FAK") :
    createAndPostOrder env op mp t creds st = (.error (mkErr (fokRejectMsg t)), st2) := by
  unfold createAndPostOrder
  rw [hacq]
  dsimp only
  rw [htick]
  dsimp only
  rw [hts]
  rcases ht with ht | ht <;> subst ht
  · have h1 : ((mkErr (fokRejectMsg "FOK")).responseStatus == some (404 : Int)) = false := by
      decide
    have h2 : occursIn (mkErr (fokRejectMsg "FOK")).message "toString" = false := by decide
    have h3 : (("FOK" : String) == "FOK" || ("FOK" : String) == "FAK") = true := by decide
    simp [h3, submitCatch, h1, h2]
  · have h1 : ((mkErr (fokRejectMsg "FAK")).responseStatus == some (404 : Int)) = false := by
      decide
    have h2 : occursIn (mkErr (fokRejectMsg "FAK")).message "toString" = false := by decide
    have h3 : (("FAK" : String) == "FOK" || ("FAK" : String) == "FAK") = true := by decide
    simp [h3, submitCatch, h1, h2]

theorem createAndPostOrder_run
    (env : Env) (op : OrderParams) (mp : MarketParams) (t : String)
    (creds : Option Cred) (st st1 st2 : Registry) (client : Client) (ts : String)
    (hacq : acquireClient env creds st = (.ok client, st1))
    (htick : resolveTick env op.tokenID client mp.tickSize st1 = (.ok ts, st2))
    (hts : (ts == "") = false)
    (hnf : (t == "FOK" || t == "FAK") = false) :
    createAndPostOrder env op mp t creds st
      = (match env.postLimitU (mkLimitPayload op mp ts t) with
         | .ok d => .ok d
         | .error e => .error (submitCatch op.tokenID e),
         { st2 with netLog := st2.netLog ++ [NetCall.postLimit (mkLimitPayload op mp ts t)] }) := by
  unfold createAndPostOrder
  rw [hacq]
  dsimp only
  rw [htick]
  dsimp only
  rw [hts, hnf]
  rcases h : env.postLimitU (mkLimitPayload op mp ts t) with d | e <;> simp [h]

theorem createAndPostMarketOrder_posted (env : Env) (op : MarketOrderParams)
    (ts? : Option String) (ot : String) (creds : Option Cred) (st : Registry)
    (d : OrderData) (st' : Registry)
    (h : createAndPostMarketOrder env op ts? ot creds st = (.ok d, st')) :
    ∃ p, NetCall.postMarket p ∈ st'.netLog := by
  unfold createAndPostMarketOrder at h
  split at h
  · exact absurd h (by simp)
  · split at h
    · exact absurd h (by simp)
    · split at h
      · injection h with h1 h2
        rw [← h2]
        exact ⟨_, List.mem_append_right _ (List.mem_singleton.mpr rfl)⟩
      · exact absurd h (by simp)

/-! ### Claim theorems -/

/-- C1: a market-order request that passes all five validation checks
(tokenID truthy, amount present and positive, side truthy, orderType in
{FOK, FAK}, credentials correctly paired) is dispatched through the
session's market-order submission call, and on success the handler
responds 200 with the `{success := true, data, timestamp}` envelope. -/
theorem c1_market_order_submitted
    (env : Env) (req : MarketReq) (st st' : Registry) (d : OrderData)
    (htok : strFalsy req.tokenID = false)
    (hamt : amountBad req.amount = false)
    (hside : strFalsy req.side = false)
    (hot : mOrderTypeBad req.orderType = false)
    (hpair : pairingViolation req.privateKey req.funderAddress = false)
    (hdisp : createAndPostMarketOrder env
        { tokenID := req.tokenID.getD "", amount := req.amount.getD 0,
          side := req.side.getD "", orderType := req.orderType.getD "" }
        req.tickSize (req.orderType.getD "")
        (resolveCreds req.privateKey req.funderAddress) st = (.ok d, st')) :
    handleMarket env req st
      = ({ status := 200, body := .envelope true (some d) none env.now }, st')
    ∧ ∃ p, NetCall.postMarket p ∈ st'.netLog := by
  constructor
  · simp only [handleMarket, htok, hamt, hside, hot, hpair, Bool.false_eq_true, if_false,
      marketDispatch]
    rw [hdisp]
  · exact createAndPostMarketOrder_posted env _ req.tickSize _ _ st d st' hdisp

theorem c1_witness :
    strFalsy mreqW.tokenID = false ∧
    amountBad mreqW.amount = false ∧
    strFalsy mreqW.side = false ∧
    mOrderTypeBad mreqW.orderType = false ∧
    pairingViolation mreqW.privateKey mreqW.funderAddress = false ∧
    (handleMarket okEnv mreqW Registry.init
        = ({ status := 200, body := .envelope true (some "posted-market") none "T" },
           stMarketFinal)
     ∧ ∃ p, NetCall.postMarket p ∈ stMarketFinal.netLog) :=
  ⟨rfl, rfl, rfl, rfl, rfl,
   c1_market_order_submitted okEnv mreqW Registry.init stMarketFinal "posted-market"
     rfl rfl rfl rfl rfl rfl⟩

theorem cacheKey_data (pk fa : String) :
    (cacheKey pk fa).data = pk.data ++ ('-' :: fa.data) := by
  show ((pk ++ "-") ++ fa).data = _
  rw [strApp_data, strApp_data]
  simp

theorem sep_inj (l1 : List Char) : ∀ (l2 r1 r2 : List Char),
    ('-' : Char) ∉ l1 → ('-' : Char) ∉ l2 →
    l1 ++ '-' :: r1 = l2 ++ '-' :: r2 → l1 = l2 ∧ r1 = r2 := by
  induction l1 with
  | nil =>
    intro l2 r1 r2 h1 h2 h
    cases l2 with
    | nil => exact ⟨rfl, by simpa using h⟩
    | cons b t2 =>
      simp only [List.nil_append, List.cons_append, List.cons.injEq] at h
      exact absurd (by rw [h.1]; exact List.mem_cons_self b t2) h2
  | cons a t ih =>
    intro l2 r1 r2 h1 h2 h
    cases l2 with
    | nil =>
      simp only [List.nil_append, List.cons_append, List.cons.injEq] at h
      exact absurd (by rw [← h.1]; exact List.mem_cons_self a t) h1
    | cons b t2 =>
      simp only [List.cons_append, List.cons.injEq] at h
      obtain ⟨hab, hrest⟩ := h
      have h1' : ('-' : Char) ∉ t := fun hm => h1 (List.mem_cons_of_mem _ hm)
      have h2' : ('-' : Char) ∉ t2 := fun hm => h2 (List.mem_cons_of_mem _ hm)
      obtain ⟨he, hr⟩ := ih t2 r1 r2 h1' h2' hrest
      exact ⟨by rw [hab, he], hr⟩

/-- C4 counterexample: two distinct credential pairs that collide on the
cache key, because the key is plain hyphen-joined concatenation. -/
theorem c4_counterexample :
    cacheKey "a-b" "c" = cacheKey "a" "b-c" ∧
      ¬((("a-b", "c") : String × String) = ("a", "b-c")) := by
  constructor
  · rfl
  · decide

/-- C4 (amended): the cache key separates distinct credential pairs only
when the signing keys contain no hyphen; under that proviso the key
function is injective, so each cache key is bound to one pair. -/
theorem c4_cache_key_injective
    (pk1 fa1 pk2 fa2 : String)
    (h1 : ('-' : Char) ∉ pk1.data) (h2 : ('-' : Char) ∉ pk2.data)
    (heq : cacheKey pk1 fa1 = cacheKey pk2 fa2) :
    pk1 = pk2 ∧ fa1 = fa2 := by
  have hd := congrArg String.data heq
  rw [cacheKey_data, cacheKey_data] at hd
  obtain ⟨hp, hf⟩ := sep_inj pk1.data pk2.data fa1.data fa2.data h1 h2 hd
  exact ⟨String.ext hp, String.ext hf⟩

theorem c4_witness :
    (('-' : Char) ∉ "a".data) ∧ cacheKey "a" "b" = cacheKey "a" "b" ∧
      ("a" = "a" ∧ "b" = "b") :=
  ⟨by decide, rfl, c4_cache_key_injective "a" "b" "a" "b" (by decide) (by decide) rfl⟩

/-- C5: if session acquisition succeeds for a credential pair, calling it
again sequentially with the same pair returns the identical cached client
(and unchanged registry), and at most one upstream credential derivation
was performed for that pair across the two calls. -/
theorem c5_session_acquired_once
    (env : Env) (pk fa host : String) (ci sg : Int) (st st1 : Registry) (c : Client)
    (h1 : getInstanceWithCredentials env pk fa host ci sg st = (.ok c, st1)) :
    getInstanceWithCredentials env pk fa host ci sg st1 = (.ok c, st1) ∧
      st1.netLog.count (NetCall.derive pk) ≤ st.netLog.count (NetCall.derive pk) + 1 := by
  unfold getInstanceWithCredentials at h1
  split at h1
  · rename_i c0 heq
    injection h1 with hc hst
    injection hc with hc
    subst hst
    subst hc
    constructor
    · unfold getInstanceWithCredentials
      rw [heq]
    · exact Nat.le_succ _
  · split at h1
    · exact absurd h1 (by simp)
    · split at h1
      · exact absurd h1 (by simp)
      · split at h1
        · exact absurd h1 (by simp)
        · split at h1
          · exact absurd h1 (by simp)
          · rename_i creds? st' hcr
            dsimp only at h1
            injection h1 with hc hst
            injection hc with hc
            constructor
            · unfold getInstanceWithCredentials
              rw [← hst]
              dsimp only
              rw [alookup_ainsert_self]
              rw [hc]
            · have hl := credsLookupOrDerive_netLog env pk (cacheKey pk fa) st
              rw [hcr] at hl
              have hlog : st1.netLog = st'.netLog := by rw [← hst]
              rcases hl with hl | hl
              · rw [hlog, hl]; exact Nat.le_succ _
              · rw [hlog, hl]
                simp [List.count_append, List.count_cons]

theorem c5_witness :
    getInstanceWithCredentials okEnv "pk" "fa" "h" 137 1 Registry.init
        = (.ok clientPk, stPk1) ∧
      (getInstanceWithCredentials okEnv "pk" "fa" "h" 137 1 stPk1 = (.ok clientPk, stPk1) ∧
        stPk1.netLog.count (NetCall.derive "pk")
          ≤ Registry.init.netLog.count (NetCall.derive "pk") + 1) :=
  ⟨rfl, c5_session_acquired_once okEnv "pk" "fa" "h" 137 1 Registry.init stPk1 clientPk rfl⟩

/-- C2 counterexample: a limit request with `orderType = "FOK"` that
passes field validation is answered with HTTP 500 (not 400), and network
calls (credential derivation, tick-size lookup) were made before the
rejection. -/
theorem c2_counterexample :
    (handleLimit okEnv lreqFok Registry.init).1.status = 500 ∧
      ¬((handleLimit okEnv lreqFok Registry.init).1.status = 400) ∧
      (handleLimit okEnv lreqFok Registry.init).2.netLog ≠ [] := by
  decide

/-- C2 (amended): a limit/legacy request whose orderType is FOK or FAK is
rejected, but with HTTP 500 (the failure envelope), only after session
acquisition and tick-size resolution have run (so network calls may
precede it); the error message states that FOK/FAK require the
market-order submission path, and no order is ever submitted. -/
theorem c2_limit_fok_rejected_late
    (env : Env) (req : LimitReq) (st st1 st2 : Registry) (client : Client) (ts t : String)
    (htok : strFalsy req.tokenID = false)
    (hprice : req.price.isNone = false)
    (hside : strFalsy req.side = false)
    (hsize : req.size.isNone = false)
    (hpair : pairingViolation req.privateKey req.funderAddress = false)
    (hot : req.orderType = some t)
    (ht : t = "FOK" ∨ t = "FAK")
    (hacq : acquireClient env (resolveCreds req.privateKey req.funderAddress) st
      = (.ok client, st1))
    (htick : resolveTick env (req.tokenID.getD "") client req.tickSize st1 = (.ok ts, st2))
    (hts : (ts == "") = false) :
    handleLimit env req st
      = ({ status := 500, body := .envelope false none (some (fokRejectMsg t)) env.now }, st2)
    ∧ handleLegacy env req st
      = ({ status := 500, body := .envelope false none (some (fokRejectMsg t)) env.now }, st2)
    ∧ ∀ p, NetCall.postLimit p ∈ st2.netLog → NetCall.postLimit p ∈ st.netLog := by
  have hjs : jsOrStr req.orderType "GTC" = t := by
    rw [hot]; rcases ht with h | h <;> subst h <;> rfl
  have hdisp := createAndPostOrder_fok env
    { tokenID := req.tokenID.getD "", price := req.price.getD 0,
      side := req.side.getD "", size := req.size.getD 0 }
    { tickSize := req.tickSize, negRisk := some (req.negRisk.getD false) }
    t (resolveCreds req.privateKey req.funderAddress) st st1 st2 client ts hacq htick hts ht
  have hfb : jsOr (mkErr (fokRejectMsg t)).message "Failed to create limit order"
      = fokRejectMsg t := by
    rcases ht with h | h <;> subst h <;> rfl
  have hfb2 : jsOr (mkErr (fokRejectMsg t)).message "Failed to create order"
      = fokRejectMsg t := by
    rcases ht with h | h <;> subst h <;> rfl
  refine ⟨?_, ?_, ?_⟩
  · simp only [handleLimit, htok, hprice, hside, hsize, hpair, Bool.false_eq_true, if_false,
      limitDispatch, hjs]
    rw [hdisp]
    dsimp only
    rw [hfb]
  · simp only [handleLegacy, htok, hprice, hside, hsize, hpair, Bool.false_eq_true, if_false,
      legacyDispatch, hjs]
    rw [hdisp]
    dsimp only
    rw [hfb2]
  · intro p hp
    have hA : st1.netLog = st.netLog ∨ ∃ k, st1.netLog = st.netLog ++ [NetCall.derive k] := by
      have h := acquireClient_netLog env (resolveCreds req.privateKey req.funderAddress) st
      rw [hacq] at h; exact h
    have hB : st2.netLog = st1.netLog ∨
        st2.netLog = st1.netLog ++ [NetCall.getTick (req.tokenID.getD "")] := by
      have h := resolveTick_netLog env (req.tokenID.getD "") client req.tickSize st1
      rw [htick] at h; exact h
    rcases hB with hB | hB <;> rcases hA with hA | ⟨k, hA⟩ <;>
      rw [hB, hA] at hp <;> simpa using hp

theorem c2_witness :
    acquireClient okEnv (resolveCreds lreqFok.privateKey lreqFok.funderAddress) Registry.init
        = (.ok clientEk, stEk1) ∧
      resolveTick okEnv (lreqFok.tokenID.getD "") clientEk lreqFok.tickSize stEk1
        = (.ok "0.01", stEk2) ∧
      (handleLimit okEnv lreqFok Registry.init
          = ({ status := 500,
               body := .envelope false none (some (fokRejectMsg "FOK")) "T" }, stEk2)
       ∧ handleLegacy okEnv lreqFok Registry.init
          = ({ status := 500,
               body := .envelope false none (some (fokRejectMsg "FOK")) "T" }, stEk2)
       ∧ ∀ p, NetCall.postLimit p ∈ stEk2.netLog →
           NetCall.postLimit p ∈ Registry.init.netLog) :=
  ⟨rfl, rfl,
   c2_limit_fok_rejected_late okEnv lreqFok Registry.init stEk1 stEk2 clientEk "0.01" "FOK"
     rfl rfl rfl rfl rfl rfl (Or.inl rfl) rfl rfl rfl⟩

/-- A validated limit request whose order type is not FOK/FAK reaches the
submission call: the handler's result is determined by `env.postLimitU`
on the mapped payload, which is appended to the network log. -/
theorem handleLimit_submits
    (env : Env) (req : LimitReq) (st st1 st2 : Registry) (client : Client) (ts : String)
    (htok : strFalsy req.tokenID = false)
    (hprice : req.price.isNone = false)
    (hside : strFalsy req.side = false)
    (hsize : req.size.isNone = false)
    (hpair : pairingViolation req.privateKey req.funderAddress = false)
    (hnf : (jsOrStr req.orderType "GTC" == "FOK"
            || jsOrStr req.orderType "GTC" == "FAK") = false)
    (hacq : acquireClient env (resolveCreds req.privateKey req.funderAddress) st
      = (.ok client, st1))
    (htick : resolveTick env (req.tokenID.getD "") client req.tickSize st1 = (.ok ts, st2))
    (hts : (ts == "") = false) :
    handleLimit env req st
      = (match env.postLimitU (mkLimitPayload
            { tokenID := req.tokenID.getD "", price := req.price.getD 0,
              side := req.side.getD "", size := req.size.getD 0 }
            { tickSize := req.tickSize, negRisk := some (req.negRisk.getD false) }
            ts (jsOrStr req.orderType "GTC")) with
         | .ok d => { status := 200, body := .envelope true (some d) none env.now }
         | .error e =>
           { status := 500,
             body := .envelope false none
               (some (jsOr (submitCatch (req.tokenID.getD "") e).message
                 "Failed to create limit order")) env.now },
         { st2 with netLog := st2.netLog ++ [NetCall.postLimit (mkLimitPayload
            { tokenID := req.tokenID.getD "", price := req.price.getD 0,
              side := req.side.getD "", size := req.size.getD 0 }
            { tickSize := req.tickSize, negRisk := some (req.negRisk.getD false) }
            ts (jsOrStr req.orderType "GTC"))] }) := by
  have hdisp := createAndPostOrder_run env
    { tokenID := req.tokenID.getD "", price := req.price.getD 0,
      side := req.side.getD "", size := req.size.getD 0 }
    { tickSize := req.tickSize, negRisk := some (req.negRisk.getD false) }
    (jsOrStr req.orderType "GTC") (resolveCreds req.privateKey req.funderAddress)
    st st1 st2 client ts hacq htick hts hnf
  simp only [handleLimit, htok, hprice, hside, hsize, hpair, Bool.false_eq_true, if_false,
    limitDispatch]
  rw [hdisp]
  rcases hpost : env.postLimitU (mkLimitPayload
      { tokenID := req.tokenID.getD "", price := req.price.getD 0,
        side := req.side.getD "", size := req.size.getD 0 }
      { tickSize := req.tickSize, negRisk := some (req.negRisk.getD false) }
      ts (jsOrStr req.orderType "GTC")) with d | e <;>
    simp [hpost]

/-- C6 counterexample: a limit request with `side = "HOLD"` (not BUY or
SELL) is not rejected with 400; it is accepted (200 here) and the order
is submitted with side mapped to SELL. -/
theorem c6_counterexample :
    (handleLimit okEnv lreqHold Registry.init).1.status = 200 ∧
      ¬((handleLimit okEnv lreqHold Registry.init).1.status = 400) ∧
      NetCall.postLimit payloadHoldSell
        ∈ (handleLimit okEnv lreqHold Registry.init).2.netLog := by
  decide

/-- C6 (amended): the side field is only checked for JS truthiness: any
non-empty side passes validation, and a non-empty side other than "BUY"
is silently mapped to SELL and submitted (the response is never a 400
side-validation rejection). -/
theorem c6_side_not_validated
    (env : Env) (req : LimitReq) (st st1 st2 : Registry) (client : Client) (ts s : String)
    (htok : strFalsy req.tokenID = false)
    (hprice : req.price.isNone = false)
    (hside : req.side = some s)
    (hs : (s == "") = false)
    (hnb : (s == "BUY") = false)
    (hsize : req.size.isNone = false)
    (hpair : pairingViolation req.privateKey req.funderAddress = false)
    (hnf : (jsOrStr req.orderType "GTC" == "FOK"
            || jsOrStr req.orderType "GTC" == "FAK") = false)
    (hacq : acquireClient env (resolveCreds req.privateKey req.funderAddress) st
      = (.ok client, st1))
    (htick : resolveTick env (req.tokenID.getD "") client req.tickSize st1 = (.ok ts, st2))
    (hts : (ts == "") = false) :
    ∃ p, (handleLimit env req st).2.netLog = st2.netLog ++ [NetCall.postLimit p]
      ∧ p.side = Side.SELL
      ∧ ¬((handleLimit env req st).1.status = 400) := by
  have hsf : strFalsy req.side = false := by rw [hside]; exact hs
  have hrun := handleLimit_submits env req st st1 st2 client ts
    htok hprice hsf hsize hpair hnf hacq htick hts
  rw [hrun]
  refine ⟨_, rfl, ?_, ?_⟩
  · simp [mkLimitPayload, hside, hnb]
  · rcases hpost : env.postLimitU (mkLimitPayload
        { tokenID := req.tokenID.getD "", price := req.price.getD 0,
          side := req.side.getD "", size := req.size.getD 0 }
        { tickSize := req.tickSize, negRisk := some (req.negRisk.getD false) }
        ts (jsOrStr req.orderType "GTC")) with d | e <;> simp [hpost]

theorem c6_witness :
    lreqHold.side = some "HOLD" ∧ (("HOLD" : String) == "BUY") = false ∧
      ∃ p, (handleLimit okEnv lreqHold Registry.init).2.netLog
          = stPk1.netLog ++ [NetCall.postLimit p]
        ∧ p.side = Side.SELL
        ∧ ¬((handleLimit okEnv lreqHold Registry.init).1.status = 400) :=
  ⟨rfl, rfl,
   c6_side_not_validated okEnv lreqHold Registry.init stPk1 stPk1 clientPk "0.1" "HOLD"
     rfl rfl rfl rfl rfl rfl rfl rfl rfl rfl rfl⟩

/-- C10: a limit-order request whose orderType is any string other than
GTD, FOK or FAK (e.g. "XYZ") is not rejected; the type is silently mapped
to GTC and the order is submitted as GTC. -/
theorem c10_unknown_order_type_becomes_gtc
    (env : Env) (req : LimitReq) (st st1 st2 : Registry) (client : Client) (ts t : String)
    (htok : strFalsy req.tokenID = false)
    (hprice : req.price.isNone = false)
    (hside : strFalsy req.side = false)
    (hsize : req.size.isNone = false)
    (hpair : pairingViolation req.privateKey req.funderAddress = false)
    (hot : req.orderType = some t)
    (hgtd : (t == "GTD") = false)
    (hfok : (t == "FOK") = false)
    (hfak : (t == "FAK") = false)
    (hacq : acquireClient env (resolveCreds req.privateKey req.funderAddress) st
      = (.ok client, st1))
    (htick : resolveTick env (req.tokenID.getD "") client req.tickSize st1 = (.ok ts, st2))
    (hts : (ts == "") = false) :
    ∃ p, (handleLimit env req st).2.netLog = st2.netLog ++ [NetCall.postLimit p]
      ∧ p.orderType = VenueOrderType.GTC
      ∧ ¬((handleLimit env req st).1.status = 400) := by
  have hjsv : jsOrStr req.orderType "GTC" = if t == "" then "GTC" else t := by
    rw [hot]; rfl
  have hnf : (jsOrStr req.orderType "GTC" == "FOK"
      || jsOrStr req.orderType "GTC" == "FAK") = false := by
    rw [hjsv]
    by_cases h0 : (t == "") = true
    · simp [h0]
    · simp only [eq_false_of_ne_true h0, Bool.false_eq_true, if_false]
      rw [hfok, hfak]; rfl
  have hgtd' : (jsOrStr req.orderType "GTC" == "GTD") = false := by
    rw [hjsv]
    by_cases h0 : (t == "") = true
    · simp [h0]
    · simp only [eq_false_of_ne_true h0, Bool.false_eq_true, if_false]
      exact hgtd
  have hrun := handleLimit_submits env req st st1 st2 client ts
    htok hprice hside hsize hpair hnf hacq htick hts
  rw [hrun]
  refine ⟨_, rfl, ?_, ?_⟩
  · simp [mkLimitPayload, hgtd']
  · rcases hpost : env.postLimitU (mkLimitPayload
        { tokenID := req.tokenID.getD "", price := req.price.getD 0,
          side := req.side.getD "", size := req.size.getD 0 }
        { tickSize := req.tickSize, negRisk := some (req.negRisk.getD false) }
        ts (jsOrStr req.orderType "GTC")) with d | e <;> simp [hpost]

theorem c10_witness :
    lreqXyz.orderType = some "XYZ" ∧ (("XYZ" : String) == "GTD") = false ∧
      ∃ p, (handleLimit okEnv lreqXyz Registry.init).2.netLog
          = stPk1.netLog ++ [NetCall.postLimit p]
        ∧ p.orderType = VenueOrderType.GTC
        ∧ ¬((handleLimit okEnv lreqXyz Registry.init).1.status = 400) :=
  ⟨rfl, rfl,
   c10_unknown_order_type_becomes_gtc okEnv lreqXyz Registry.init stPk1 stPk1 clientPk
     "0.1" "XYZ" rfl rfl rfl rfl rfl rfl rfl rfl rfl rfl rfl rfl⟩

theorem limitDispatch_shape (env : Env) (req : LimitReq) (creds : Option Cred)
    (st : Registry) : respShape env.now (limitDispatch env req creds st).1 := by
  unfold limitDispatch
  split
  · exact Or.inr (Or.inl ⟨rfl, _, rfl⟩)
  · exact Or.inr (Or.inr ⟨rfl, _, rfl⟩)

theorem legacyDispatch_shape (env : Env) (req : LimitReq) (creds : Option Cred)
    (st : Registry) : respShape env.now (legacyDispatch env req creds st).1 := by
  unfold legacyDispatch
  split
  · exact Or.inr (Or.inl ⟨rfl, _, rfl⟩)
  · exact Or.inr (Or.inr ⟨rfl, _, rfl⟩)

theorem marketDispatch_shape (env : Env) (req : MarketReq) (creds : Option Cred)
    (st : Registry) : respShape env.now (marketDispatch env req creds st).1 := by
  unfold marketDispatch
  split
  · exact Or.inr (Or.inl ⟨rfl, _, rfl⟩)
  · exact Or.inr (Or.inr ⟨rfl, _, rfl⟩)

/-- C3 counterexample: a validation failure (missing price) is answered
with status 400 but its body is the bare `{error}` object — it carries
neither a `success` field nor a `timestamp` field, so it is not the
`{success, data?, error?, timestamp}` envelope the claim asserts. -/
theorem c3_counterexample :
    (handleLimit okEnv lreqNoPrice Registry.init).1.status = 400 ∧
      isEnvelope (handleLimit okEnv lreqNoPrice Registry.init).1.body = false := by
  decide

/-- C3 (amended): every response of the three order endpoints is one of
exactly three shapes: 400 with a bare `{error}` body (validation
failures, no success/timestamp fields), 200 with the success envelope,
or 500 with the failure envelope. -/
theorem c3_response_shapes (env : Env) (st : Registry) (lreq : LimitReq) (mreq : MarketReq) :
    respShape env.now (handleLimit env lreq st).1
    ∧ respShape env.now (handleLegacy env lreq st).1
    ∧ respShape env.now (handleMarket env mreq st).1 := by
  refine ⟨?_, ?_, ?_⟩
  · unfold handleLimit
    split
    · exact Or.inl ⟨rfl, _, rfl⟩
    · split
      · exact Or.inl ⟨rfl, _, rfl⟩
      · split
        · exact Or.inl ⟨rfl, _, rfl⟩
        · split
          · exact Or.inl ⟨rfl, _, rfl⟩
          · split
            · exact Or.inl ⟨rfl, _, rfl⟩
            · exact limitDispatch_shape env lreq _ st
  · unfold handleLegacy
    split
    · exact Or.inl ⟨rfl, _, rfl⟩
    · split
      · exact Or.inl ⟨rfl, _, rfl⟩
      · split
        · exact Or.inl ⟨rfl, _, rfl⟩
        · split
          · exact Or.inl ⟨rfl, _, rfl⟩
          · split
            · exact Or.inl ⟨rfl, _, rfl⟩
            · exact legacyDispatch_shape env lreq _ st
  · unfold handleMarket
    split
    · exact Or.inl ⟨rfl, _, rfl⟩
    · split
      · exact Or.inl ⟨rfl, _, rfl⟩
      · split
        · exact Or.inl ⟨rfl, _, rfl⟩
        · split
          · exact Or.inl ⟨rfl, _, rfl⟩
          · split
            · exact Or.inl ⟨rfl, _, rfl⟩
            · exact marketDispatch_shape env mreq _ st

/-- C7: the credential decision of every order endpoint: once the other
field validations pass, each handler rejects with the 400
"both or neither" error and an untouched registry exactly when one of
privateKey/funderAddress is truthy and the other is not, and otherwise
proceeds to its dispatch with `resolveCreds`, which yields the explicit
pair when both are truthy and the server default (`none`) when both are
absent.  The decision itself is a pure function of the two fields. -/
theorem c7_credential_pairing
    (env : Env) (st : Registry) (lreq : LimitReq) (mreq : MarketReq)
    (hltok : strFalsy lreq.tokenID = false)
    (hlprice : lreq.price.isNone = false)
    (hlside : strFalsy lreq.side = false)
    (hlsize : lreq.size.isNone = false)
    (hmtok : strFalsy mreq.tokenID = false)
    (hmamt : amountBad mreq.amount = false)
    (hmside : strFalsy mreq.side = false)
    (hmot : mOrderTypeBad mreq.orderType = false) :
    (handleLimit env lreq st
      = if pairingViolation lreq.privateKey lreq.funderAddress then
          ({ status := 400, body := .errOnly bothRequiredMsg }, st)
        else limitDispatch env lreq (resolveCreds lreq.privateKey lreq.funderAddress) st)
    ∧ (handleLegacy env lreq st
      = if pairingViolation lreq.privateKey lreq.funderAddress then
          ({ status := 400, body := .errOnly bothRequiredMsg }, st)
        else legacyDispatch env lreq (resolveCreds lreq.privateKey lreq.funderAddress) st)
    ∧ (handleMarket env mreq st
      = if pairingViolation mreq.privateKey mreq.funderAddress then
          ({ status := 400, body := .errOnly bothRequiredMsg }, st)
        else marketDispatch env mreq (resolveCreds mreq.privateKey mreq.funderAddress) st)
    ∧ (∀ pk fa : String, pk ≠ "" → fa ≠ "" →
        resolveCreds (some pk) (some fa) = some ⟨pk, fa⟩
        ∧ pairingViolation (some pk) (some fa) = false)
    ∧ (resolveCreds none none = none ∧ pairingViolation none none = false)
    ∧ (∀ pk : String, pk ≠ "" →
        pairingViolation (some pk) none = true ∧ pairingViolation none (some pk) = true) := by
  refine ⟨?_, ?_, ?_, ?_, ⟨rfl, rfl⟩, ?_⟩
  · simp only [handleLimit, hltok, hlprice, hlside, hlsize, Bool.false_eq_true, if_false]
  · simp only [handleLegacy, hltok, hlprice, hlside, hlsize, Bool.false_eq_true, if_false]
  · simp only [handleMarket, hmtok, hmamt, hmside, hmot, Bool.false_eq_true, if_false]
  · intro pk fa hpk hfa
    have h1 : (pk == "") = false := beq_eq_false_iff_ne.mpr hpk
    have h2 : (fa == "") = false := beq_eq_false_iff_ne.mpr hfa
    constructor
    · simp [resolveCreds, strTruthy, strFalsy, h1, h2]
    · simp [pairingViolation, strTruthy, strFalsy, h1, h2]
  · intro pk hpk
    have h1 : (pk == "") = false := beq_eq_false_iff_ne.mpr hpk
    constructor
    · simp [pairingViolation, strTruthy, strFalsy, h1]
    · simp [pairingViolation, strTruthy, strFalsy, h1]

theorem c7_witness :
    strFalsy lreqPlain.tokenID = false ∧
      (handleLimit okEnv lreqPlain Registry.init
        = if pairingViolation lreqPlain.privateKey lreqPlain.funderAddress then
            ({ status := 400, body := .errOnly bothRequiredMsg }, Registry.init)
          else limitDispatch okEnv lreqPlain
            (resolveCreds lreqPlain.privateKey lreqPlain.funderAddress) Registry.init) :=
  ⟨rfl,
   (c7_credential_pairing okEnv Registry.init lreqPlain mreqW
      rfl rfl rfl rfl rfl rfl rfl rfl).1⟩

theorem createAndPostOrder_tickError
    (env : Env) (op : OrderParams) (mp : MarketParams) (t : String)
    (creds : Option Cred) (st st1 st2 : Registry) (client : Client) (e : UpstreamErr)
    (hacq : acquireClient env creds st = (.ok client, st1))
    (htick : resolveTick env op.tokenID client mp.tickSize st1 = (.error e, st2)) :
    createAndPostOrder env op mp t creds st = (.error e, st2) := by
  unfold createAndPostOrder
  rw [hacq]
  dsimp only
  rw [htick]

/-- C8: with the request's tick size absent (or the empty string, which
is treated as absent), the limit route resolves the tick size from the
venue: if the lookup succeeds the fetched value is the one used in the
submitted payload, and if the venue signals "not found" the request
fails with a 500 failure envelope whose error message contains
"Market not found for tokenID: " followed by the tokenID. -/
theorem c8_tick_resolution
    (env : Env) (req : LimitReq) (st st1 : Registry) (client : Client) (tok : String)
    (htokv : req.tokenID = some tok)
    (htok : strFalsy req.tokenID = false)
    (hprice : req.price.isNone = false)
    (hside : strFalsy req.side = false)
    (hsize : req.size.isNone = false)
    (hpair : pairingViolation req.privateKey req.funderAddress = false)
    (habs : req.tickSize = none ∨ req.tickSize = some "")
    (hacq : acquireClient env (resolveCreds req.privateKey req.funderAddress) st
      = (.ok client, st1)) :
    (∀ ts, env.getTickSize tok = .ok ts → (ts == "") = false →
      (jsOrStr req.orderType "GTC" == "FOK"
        || jsOrStr req.orderType "GTC" == "FAK") = false →
      ∃ p, NetCall.postLimit p ∈ (handleLimit env req st).2.netLog ∧ p.tickSize = ts)
    ∧ (∀ e, env.getTickSize tok = .error e → notFoundSignal e = true →
      (handleLimit env req st).1.status = 500 ∧
      ∃ m, (handleLimit env req st).1.body = Body.envelope false none (some m) env.now ∧
        occursIn m ("Market not found for tokenID: " ++ tok) = true) := by
  have hgd : req.tokenID.getD "" = tok := by rw [htokv]; rfl
  constructor
  · intro ts hok hts hnf
    have htick : resolveTick env (req.tokenID.getD "") client req.tickSize st1
        = (.ok ts, { st1 with netLog :=
            st1.netLog ++ [NetCall.getTick (req.tokenID.getD "")] }) := by
      rw [hgd]
      exact resolveTick_absent_ok env tok client req.tickSize st1 ts habs hok
    have hrun := handleLimit_submits env req st st1 _ client ts
      htok hprice hside hsize hpair hnf hacq htick hts
    rw [hrun]
    exact ⟨_, List.mem_append_right _ (List.mem_singleton.mpr rfl), rfl⟩
  · intro e herr hnf
    have htick : resolveTick env (req.tokenID.getD "") client req.tickSize st1
        = (.error (mkErr ("Failed to get market info: " ++
            ("Market not found for tokenID: " ++ tok ++
              ". Please verify the tokenID is correct and the market exists.") ++
            ". Please provide tickSize manually or use a valid tokenID.")),
           { st1 with netLog := st1.netLog ++ [NetCall.getTick (req.tokenID.getD "")] }) := by
      rw [hgd]
      exact resolveTick_absent_notFound env tok client req.tickSize st1 e habs herr hnf
    have hdisp := createAndPostOrder_tickError env
      { tokenID := req.tokenID.getD "", price := req.price.getD 0,
        side := req.side.getD "", size := req.size.getD 0 }
      { tickSize := req.tickSize, negRisk := some (req.negRisk.getD false) }
      (jsOrStr req.orderType "GTC") (resolveCreds req.privateKey req.funderAddress)
      st st1 _ client _ hacq htick
    have hne : ¬(("Failed to get market info: " ++
        ("Market not found for tokenID: " ++ tok ++
          ". Please verify the tokenID is correct and the market exists.") ++
        ". Please provide tickSize manually or use a valid tokenID.") = "") := by
      intro hM
      have hdd := congrArg String.data hM
      simp only [strApp_data, List.append_eq_nil] at hdd
      exact absurd hdd.1.1 (by decide)
    have hbeq := beq_eq_false_iff_ne.mpr hne
    constructor
    · simp only [handleLimit, htok, hprice, hside, hsize, hpair, Bool.false_eq_true, if_false,
        limitDispatch]
      rw [hdisp]
    · refine ⟨"Failed to get market info: " ++
        ("Market not found for tokenID: " ++ tok ++
          ". Please verify the tokenID is correct and the market exists.") ++
        ". Please provide tickSize manually or use a valid tokenID.", ?_, ?_⟩
      · simp only [handleLimit, htok, hprice, hside, hsize, hpair, Bool.false_eq_true, if_false,
          limitDispatch]
        rw [hdisp]
        dsimp only
        rw [show jsOr (mkErr ("Failed to get market info: " ++
            ("Market not found for tokenID: " ++ tok ++
              ". Please verify the tokenID is correct and the market exists.") ++
            ". Please provide tickSize manually or use a valid tokenID.")).message
            "Failed to create limit order"
          = ("Failed to get market info: " ++
            ("Market not found for tokenID: " ++ tok ++
              ". Please verify the tokenID is correct and the market exists.") ++
            ". Please provide tickSize manually or use a valid tokenID.")
          from jsOr_of_ne _ _ hbeq]
      · unfold occursIn
        apply hasSub_append' ("Failed to get market info: ".data)
          ((". Please verify the tokenID is correct and the market exists.").data ++
            (". Please provide tickSize manually or use a valid tokenID.").data)
        simp [strApp_data, List.append_assoc]

theorem c8_witness :
    acquireClient nfEnv (resolveCreds lreqFetch.privateKey lreqFetch.funderAddress)
        Registry.init = (.ok clientEk, stEk1) ∧
      nfEnv.getTickSize "tok" = .error nfErr ∧
      notFoundSignal nfErr = true ∧
      ((handleLimit nfEnv lreqFetch Registry.init).1.status = 500 ∧
        ∃ m, (handleLimit nfEnv lreqFetch Registry.init).1.body
            = Body.envelope false none (some m) nfEnv.now ∧
          occursIn m ("Market not found for tokenID: " ++ "tok") = true) :=
  ⟨rfl, rfl, rfl,
   (c8_tick_resolution nfEnv lreqFetch Registry.init stEk1 clientEk "tok"
      rfl rfl rfl rfl rfl rfl (Or.inl rfl) rfl).2 nfErr rfl rfl⟩

/-- C9 counterexample: the legacy endpoint is not a perfect behavioural
alias — when the submission call throws an error whose message is empty,
the two endpoints answer with different fallback error texts, so the same
request body yields different responses. -/
theorem c9_counterexample :
    ¬(handleLimit emptyMsgEnv lreqPlain Registry.init
        = handleLegacy emptyMsgEnv lreqPlain Registry.init) := by
  decide

/-- C9 (amended): for every request body, the legacy endpoint performs the
same validation and produces the same response as the limit endpoint,
except that when the dispatch fails with an error whose message is empty
the two differ only in the hard-coded fallback error text
("Failed to create order" versus "Failed to create limit order"). -/
theorem c9_legacy_alias_up_to_fallback (env : Env) (req : LimitReq) (st : Registry) :
    handleLegacy env req st = handleLimit env req st
    ∨ ∃ st', handleLegacy env req st
        = ({ status := 500,
             body := .envelope false none (some "Failed to create order") env.now }, st')
      ∧ handleLimit env req st
        = ({ status := 500,
             body := .envelope false none (some "Failed to create limit order") env.now },
           st') := by
  by_cases h1 : strFalsy req.tokenID = true
  · exact Or.inl (by simp [handleLegacy, handleLimit, h1])
  replace h1 := eq_false_of_ne_true h1
  by_cases h2 : req.price.isNone = true
  · exact Or.inl (by simp [handleLegacy, handleLimit, h1, h2])
  replace h2 := eq_false_of_ne_true h2
  by_cases h3 : strFalsy req.side = true
  · exact Or.inl (by simp [handleLegacy, handleLimit, h1, h2, h3])
  replace h3 := eq_false_of_ne_true h3
  by_cases h4 : req.size.isNone = true
  · exact Or.inl (by simp [handleLegacy, handleLimit, h1, h2, h3, h4])
  replace h4 := eq_false_of_ne_true h4
  by_cases h5 : pairingViolation req.privateKey req.funderAddress = true
  · exact Or.inl (by simp [handleLegacy, handleLimit, h1, h2, h3, h4, h5])
  replace h5 := eq_false_of_ne_true h5
  simp only [handleLegacy, handleLimit, h1, h2, h3, h4, h5, Bool.false_eq_true, if_false]
  unfold legacyDispatch limitDispatch
  rcases hr : createAndPostOrder env
      { tokenID := req.tokenID.getD "", price := req.price.getD 0,
        side := req.side.getD "", size := req.size.getD 0 }
      { tickSize := req.tickSize, negRisk := some (req.negRisk.getD false) }
      (jsOrStr req.orderType "GTC") (resolveCreds req.privateKey req.funderAddress) st
    with ⟨r, st'⟩
  cases r with
  | ok d => exact Or.inl rfl
  | error e =>
    by_cases he : (e.message == "") = true
    · exact Or.inr ⟨st', by simp [jsOr, he], by simp [jsOr, he]⟩
    · replace he := eq_false_of_ne_true he
      exact Or.inl (by simp [jsOr, he])

end PolymarketApi
